import Mathlib

/-!
Verification development for the Ama CLI (src/main.py) and the AriVa
session-lifecycle / request-dispatch protocol it drives.

The CLI file `src/main.py` is embedded directly.  The engine module
`contracts/AriVa.py` (platform handle, session store, capability handlers,
router, simulation harnesses) is not part of the source snapshot, so those
definitions are modelled from the specification (spec.md sections 3-4.5) and
are marked "Modelled from the spec" in their doc comments.
-/

namespace Ama

/-- Lifecycle status of a session (spec section 3: status is one of active, closed). -/
inductive Status where
  | active
  | closed
deriving DecidableEq, Repr

/-- A session record, with the fields listed in the spec's data model (section 3).
Modelled from the spec: the session class lives in `contracts/AriVa.py`, which is
not in `src/`.  Timestamps are abstract Nat ticks; `session_id` is the allocation
index (an opaque unique identifier in the spec). -/
structure Session where
  session_id : Nat
  user_ref : String
  caller : String
  created_at : Nat
  last_active_at : Nat
  context : String
  status : Status
deriving DecidableEq, Repr

/-- Platform-handle state: the Session Store plus counters and configuration
(spec sections 4.1 and 4.4).  Modelled from the spec: `create_ariva` and the
store live in `contracts/AriVa.py`, which is not in `src/`. -/
structure Platform where
  sessions : List Session
  nextId : Nat
  now : Nat
  idleThreshold : Nat
  totalCreated : Nat
deriving DecidableEq, Repr

/-- A JSON-ish parameter value as sent by the CLI: argparse produces strings and
ints (`--kind`, `--max-n` use `type=int`; everything else is a string). -/
inductive Value where
  | str (s : String)
  | int (n : Int)
deriving DecidableEq, Repr

/-- A request parameter mapping, as the Python dict literals built in src/main.py. -/
abbrev Params := List (String × Value)

/-- Key lookup in a parameter mapping (the Python `params["k"]` / `"k" in params`). -/
def getParam (ps : Params) (k : String) : Option Value :=
  (ps.find? (fun kv => kv.fst == k)).map Prod.snd

/-- Error kinds of the protocol taxonomy (spec section 7). -/
inductive ErrKind where
  | invalidParams
  | notFound
  | unauthorized
  | unknownMethod
  | resourceExhausted
deriving DecidableEq, Repr

/-- A structured error object: kind, message, optional offending field
(spec section 4.2: errors are wrapped as kind / message / optional field). -/
structure Err where
  kind : ErrKind
  message : String
  field : Option String
deriving DecidableEq, Repr

/-- Response envelope of `handle_ariva_request`: either a result mapping or an
error object.  In the Python dict encoding a response is an error exactly when
it contains the key "error". -/
inductive Response where
  | ok (fields : Params)
  | err (e : Err)
deriving DecidableEq, Repr

/-- Whether the response mapping contains the "error" key
(the `if "error" in r` test repeated by every subcommand handler). -/
def Response.isErr : Response → Bool
  | .ok _ => false
  | .err _ => true

/-- Modelled from the spec: the designated coordinator identity token exported
by `contracts/AriVa.py` (spec sections 3 and 4.1).  Its concrete address value
is not visible in `src/`, so it is an abstract distinguished string. -/
def ARIVA_COORDINATOR : String := "0xARIVA_COORDINATOR"

/-- Modelled from the spec: `create_ariva` (spec section 4.4) produces a fresh
platform handle owning an empty Session Store; the idle threshold is a
configuration value with a documented default (spec section 9, open question). -/
def create_ariva : Platform :=
  { sessions := [], nextId := 0, now := 0, idleThreshold := 3600, totalCreated := 0 }

/-- Find a live (active) session by id; closed sessions are not distinguishable
from absent ones (spec section 3 invariants). -/
def findActive (p : Platform) (sid : Nat) : Option Session :=
  p.sessions.find? (fun s => s.session_id == sid && s.status == Status.active)

/-- Apply an update to the session with the given id, leaving every other
session unchanged (the store mutates exactly one record per operation). -/
def mapOn (ss : List Session) (sid : Nat) (f : Session → Session) : List Session :=
  ss.map (fun s => if s.session_id == sid then f s else s)

/-- Session fields as returned to the caller on success. -/
def statusString : Status → String
  | Status.active => "active"
  | Status.closed => "closed"

/-- Result mapping for a session record (returned by create/get). -/
def sessionFields (s : Session) : Params :=
  [("session_id", Value.str (Nat.repr s.session_id)),
   ("user_ref", Value.str s.user_ref),
   ("caller", Value.str s.caller),
   ("context", Value.str s.context),
   ("status", Value.str (statusString s.status))]

/-- Modelled from the spec: Session Store `create` (spec section 4.1): allocates
a fresh unique id, sets `created_at = last_active_at = now`, status active. -/
def createOp (p : Platform) (u c : String) : Session × Platform :=
  let s : Session :=
    { session_id := p.nextId, user_ref := u, caller := c,
      created_at := p.now, last_active_at := p.now, context := "", status := Status.active }
  (s, { p with sessions := p.sessions ++ [s], nextId := p.nextId + 1,
                totalCreated := p.totalCreated + 1 })

/-- Modelled from the spec: `get_session` handler core — store `get` plus the
touch-on-success rule (spec sections 4.1 and 4.2). -/
def getOp (p : Platform) (sid : Nat) : Response × Platform :=
  match findActive p sid with
  | some s =>
      (Response.ok (sessionFields s),
       { p with sessions := mapOn p.sessions sid (fun t => { t with last_active_at := p.now }) })
  | none => (Response.err ⟨ErrKind.notFound, "session not found", none⟩, p)

/-- Modelled from the spec: Session Store `close` (spec section 4.1): NotFound if
absent or already closed; Unauthorized unless the supplied caller exactly matches
the session's caller or the coordinator identity; otherwise sets status closed. -/
def closeOp (p : Platform) (sid : Nat) (caller : String) : Response × Platform :=
  match findActive p sid with
  | none => (Response.err ⟨ErrKind.notFound, "session not found", none⟩, p)
  | some s =>
      if caller == s.caller || caller == ARIVA_COORDINATOR then
        (Response.ok [("closed", Value.str "true"),
                      ("session_id", Value.str (Nat.repr sid))],
         { p with sessions := mapOn p.sessions sid (fun t => { t with status := Status.closed }) })
      else
        (Response.err ⟨ErrKind.unauthorized, "caller mismatch", none⟩, p)

/-- Modelled from the spec: `update_context` core (spec section 4.3): the
authorization check is identical to `close_session`; on success it replaces the
context and touches the session. -/
def updateContextOp (p : Platform) (sid : Nat) (ctx caller : String) : Response × Platform :=
  match findActive p sid with
  | none => (Response.err ⟨ErrKind.notFound, "session not found", none⟩, p)
  | some s =>
      if caller == s.caller || caller == ARIVA_COORDINATOR then
        (Response.ok [("updated", Value.str "true"),
                      ("session_id", Value.str (Nat.repr sid))],
         { p with sessions :=
             mapOn p.sessions sid (fun t => { t with context := ctx, last_active_at := p.now }) })
      else
        (Response.err ⟨ErrKind.unauthorized, "caller mismatch", none⟩, p)

/-- Modelled from the spec: `validate_code` core.  The concrete validation
algorithm is an excluded external collaborator (spec section 1), so the result
payload is an abstract success mapping; only the envelope shape matters here. -/
def validateOp (p : Platform) (code : String) : Response × Platform :=
  (Response.ok [("valid", Value.str "true"),
                ("code_length", Value.int (Int.ofNat code.length))], p)

/-- Modelled from the spec: `get_completions` core: requires a live session
(touch on success); the ranking engine is excluded, so the payload is abstract. -/
def completionsOp (p : Platform) (sid : Nat) (_pre _lineCtx _lang : String) (_maxN : Int) :
    Response × Platform :=
  match findActive p sid with
  | none => (Response.err ⟨ErrKind.notFound, "session not found", none⟩, p)
  | some _ =>
      (Response.ok [("completions", Value.int 0)],
       { p with sessions := mapOn p.sessions sid (fun t => { t with last_active_at := p.now }) })

/-- Modelled from the spec: `get_suggestions` core: requires a live session;
`kind` is constrained to the fixed enumeration 0-3 documented by the CLI
(`--kind`, "Kind 0-3"), failing with InvalidParams naming `kind` otherwise;
the suggestion engine itself is excluded, so the payload is abstract. -/
def suggestionsOp (p : Platform) (sid : Nat) (_query : String) (kind _maxN : Int) :
    Response × Platform :=
  match findActive p sid with
  | none => (Response.err ⟨ErrKind.notFound, "session not found", none⟩, p)
  | some _ =>
      if kind < 0 || 3 < kind then
        (Response.err ⟨ErrKind.invalidParams, "kind out of range", some "kind"⟩, p)
      else
        (Response.ok [("suggestions", Value.int 0)],
         { p with sessions := mapOn p.sessions sid (fun t => { t with last_active_at := p.now }) })

/-- Whether a session is stale: active and idle longer than the threshold
(spec section 4.1, `sweep`). -/
def isStale (now thr : Nat) (s : Session) : Bool :=
  s.status == Status.active && thr < now - s.last_active_at

/-- Modelled from the spec: Session Store `sweep` (spec section 4.1): closes
every active session whose idle time exceeds the threshold and returns the
number closed; all other sessions are left untouched. -/
def sweepOp (p : Platform) : Nat × Platform :=
  ((p.sessions.filter (isStale p.now p.idleThreshold)).length,
   { p with sessions :=
       p.sessions.map (fun s =>
         if isStale p.now p.idleThreshold s then { s with status := Status.closed } else s) })

/-- Modelled from the spec: `cleanup_stale` handler (spec section 4.3) wraps
`sweep` and reports the count closed. -/
def cleanupOp (p : Platform) : Response × Platform :=
  ((Response.ok [("closed", Value.int (Int.ofNat (sweepOp p).fst))]), (sweepOp p).snd)

/-- Modelled from the spec: `stats` handler returns aggregate counts. -/
def statsOp (p : Platform) : Response × Platform :=
  (Response.ok
    [("active_sessions",
      Value.int (Int.ofNat (p.sessions.countP (fun s => s.status == Status.active)))),
     ("total_created", Value.int (Int.ofNat p.totalCreated))], p)

/-- Modelled from the spec: `config` handler returns the effective configuration. -/
def configOp (p : Platform) : Response × Platform :=
  (Response.ok [("idle_threshold", Value.int (Int.ofNat p.idleThreshold))], p)

/-- Extract a required string parameter. -/
def strParam (ps : Params) (k : String) : Option String :=
  match getParam ps k with
  | some (Value.str s) => some s
  | _ => none

/-- Extract a required integer parameter. -/
def intParam (ps : Params) (k : String) : Option Int :=
  match getParam ps k with
  | some (Value.int n) => some n
  | _ => none

/-- Decimal digit value of a character, when it is one. -/
def charDigit (c : Char) : Option Nat :=
  if c.isDigit then some (c.toNat - 48) else none

/-- Parse a list of decimal digits, left to right. -/
def parseNatList : List Char → Nat → Option Nat
  | [], acc => some acc
  | c :: cs, acc =>
      match charDigit c with
      | some d => parseNatList cs (acc * 10 + d)
      | none => none

/-- Parse a non-empty all-digit string as a natural number. -/
def parseNat (s : String) : Option Nat :=
  match s.data with
  | [] => none
  | c :: cs => parseNatList (c :: cs) 0

/-- Resolve the session-id parameter: the CLI sends it as a string; the engine
parses it back to the allocation index.  Modelled from the spec: session ids are
opaque tokens minted by the engine; here they are the decimal rendering of the
allocation index. -/
def sidOfParams (ps : Params) : Option Nat :=
  match strParam ps "session_id" with
  | some s => parseNat s
  | none => none

/-- InvalidParams error naming the offending field (spec section 4.2: the router
validates required parameters before invoking the handler). -/
def missingParam (f : String) : Response :=
  Response.err ⟨ErrKind.invalidParams, "missing or malformed parameter", some f⟩

/-- Modelled from the spec: `create_session` capability handler. -/
def handle_create_session (p : Platform) (ps : Params) : Response × Platform :=
  match strParam ps "user_ref" with
  | none => (missingParam "user_ref", p)
  | some u =>
      match strParam ps "caller" with
      | none => (missingParam "caller", p)
      | some c =>
          let sp := createOp p u c
          (Response.ok (sessionFields sp.fst), sp.snd)

/-- Modelled from the spec: `get_session` capability handler. -/
def handle_get_session (p : Platform) (ps : Params) : Response × Platform :=
  match sidOfParams ps with
  | none => (missingParam "session_id", p)
  | some sid => getOp p sid

/-- Modelled from the spec: `close_session` capability handler. -/
def handle_close_session (p : Platform) (ps : Params) : Response × Platform :=
  match sidOfParams ps with
  | none => (missingParam "session_id", p)
  | some sid =>
      match strParam ps "caller" with
      | none => (missingParam "caller", p)
      | some c => closeOp p sid c

/-- Modelled from the spec: `validate_code` capability handler; fails with
InvalidParams naming `code` exactly when the `code` parameter is absent. -/
def handle_validate_code (p : Platform) (ps : Params) : Response × Platform :=
  match strParam ps "code" with
  | none => (missingParam "code", p)
  | some code => validateOp p code

/-- Modelled from the spec: `get_completions` capability handler. -/
def handle_get_completions (p : Platform) (ps : Params) : Response × Platform :=
  match sidOfParams ps with
  | none => (missingParam "session_id", p)
  | some sid =>
      match strParam ps "prefix", strParam ps "line_context", strParam ps "language",
            intParam ps "max_n" with
      | some pre, some lc, some lang, some mn => completionsOp p sid pre lc lang mn
      | _, _, _, _ => (missingParam "prefix", p)

/-- Modelled from the spec: `get_suggestions` capability handler. -/
def handle_get_suggestions (p : Platform) (ps : Params) : Response × Platform :=
  match sidOfParams ps with
  | none => (missingParam "session_id", p)
  | some sid =>
      match strParam ps "query", intParam ps "kind", intParam ps "max_n" with
      | some q, some kind, some mn => suggestionsOp p sid q kind mn
      | _, _, _ => (missingParam "query", p)

/-- Modelled from the spec: `update_context` capability handler. -/
def handle_update_context (p : Platform) (ps : Params) : Response × Platform :=
  match sidOfParams ps with
  | none => (missingParam "session_id", p)
  | some sid =>
      match strParam ps "context", strParam ps "caller" with
      | some ctx, some c => updateContextOp p sid ctx c
      | _, _ => (missingParam "context", p)

/-- Modelled from the spec: `stats` capability handler. -/
def handle_stats (p : Platform) (_ps : Params) : Response × Platform := statsOp p

/-- Modelled from the spec: `config` capability handler. -/
def handle_config (p : Platform) (_ps : Params) : Response × Platform := configOp p

/-- Modelled from the spec: `cleanup_stale` capability handler. -/
def handle_cleanup_stale (p : Platform) (_ps : Params) : Response × Platform := cleanupOp p

/-- Modelled from the spec: the Request Router's fixed registry of capability
handlers (spec section 4.2), one per method name. -/
def registry : List (String × (Platform → Params → Response × Platform)) :=
  [("create_session", handle_create_session),
   ("get_session", handle_get_session),
   ("close_session", handle_close_session),
   ("validate_code", handle_validate_code),
   ("get_completions", handle_get_completions),
   ("get_suggestions", handle_get_suggestions),
   ("update_context", handle_update_context),
   ("stats", handle_stats),
   ("config", handle_config),
   ("cleanup_stale", handle_cleanup_stale)]

/-- Modelled from the spec: `handle_ariva_request` (spec section 4.2): look the
method up in the fixed registry, dispatch, unknown method fails with
UnknownMethod. -/
def handle_ariva_request (p : Platform) (method : String) (ps : Params) :
    Response × Platform :=
  match (registry.find? (fun kv => kv.fst == method)).map Prod.snd with
  | some h => h p ps
  | none => (Response.err ⟨ErrKind.unknownMethod, "unknown method", none⟩, p)

/-! CLI layer, translated from src/main.py. -/

/-- Default config path (src/main.py line 48). -/
def AMA_CONFIG_DEFAULT : String := "ama_config.json"

/-- The optional JSON config file in its documented shape:
`{"user_ref": "...", "caller_override": "0x..."}` (src/main.py line 46); absent
keys are `none`.  This string-level view covers configs of the documented
shape; the full JSON-level model (non-object documents, non-string field
values) is in namespace `Py` below. -/
structure AmaConfig where
  user_ref : Option String
  caller_override : Option String
deriving DecidableEq, Repr

/-- The empty mapping returned by `load_ama_config` on failure. -/
def emptyConfig : AmaConfig := ⟨none, none⟩

/-- Observable state of the config file on disk: missing, present but not valid
JSON, or parsed to a config of the documented shape.  File-system access and
JSON parsing are Python-stdlib collaborators outside the embedded program,
abstracted to their observable outcomes in `load_ama_config` (src/main.py
lines 51-59). -/
inductive ConfigFile where
  | absent
  | unparsable
  | parsed (cfg : AmaConfig)
deriving DecidableEq, Repr

/-- Python truthiness-or on strings: `a or b` is `b` when `a` is the empty
string, else `a`. -/
def pyOrStr (a b : String) : String :=
  if a = "" then b else a

/-- Python truthiness-or where the left side is an optional string
(`cfg.get(k) or default`, `getattr(args, k, None) or default`). -/
def pyOrOpt (a : Option String) (b : String) : String :=
  match a with
  | some s => if s = "" then b else s
  | none => b

/-- Embeds `os.environ.get(AMA_CONFIG_ENV) or AMA_CONFIG_DEFAULT`
(src/main.py line 52): the effective config path. -/
def ama_config_path (env : Option String) : String :=
  pyOrOpt env AMA_CONFIG_DEFAULT

/-- Embeds `load_ama_config` (src/main.py lines 51-59): returns the parsed
mapping, or the empty mapping when the file is absent or fails to parse.
`fs` gives the state of the file at each path. -/
def load_ama_config (env : Option String) (fs : String → ConfigFile) : AmaConfig :=
  match fs (ama_config_path env) with
  | ConfigFile.absent => emptyConfig
  | ConfigFile.unparsable => emptyConfig
  | ConfigFile.parsed cfg => cfg

/-- Embeds `get_caller_from_config` (src/main.py lines 62-64):
`cfg.get("caller_override") or ARIVA_COORDINATOR`. -/
def get_caller_from_config (env : Option String) (fs : String → ConfigFile) : String :=
  pyOrOpt (load_ama_config env fs).caller_override ARIVA_COORDINATOR

/-- Embeds `get_user_ref_from_config` (src/main.py lines 67-69):
`cfg.get("user_ref") or "ama_cli"`. -/
def get_user_ref_from_config (env : Option String) (fs : String → ConfigFile) : String :=
  pyOrOpt (load_ama_config env fs).user_ref "ama_cli"

/-! Refined JSON-level model of the config loader.  The string-level model
above covers configs of the documented shape, as the create-session parameter
claim uses them; the totality claim needs the full behavior of json.loads and
dict.get, so the model below also represents documents that parse to a
non-object JSON value and fields holding non-string values, both of which the
Python code passes through as-is. -/

namespace Py

/-- A Python value as it can appear in a parsed JSON config document or field.
Covers the shapes relevant to the CLI's observations of such a value:
truthiness, being a string or not, and being returned verbatim. -/
inductive PyValue where
  | str (s : String)
  | int (n : Int)
  | boolVal (b : Bool)
  | noneVal
deriving DecidableEq, Repr

/-- Python truthiness of a value. -/
def PyValue.truthy : PyValue → Bool
  | PyValue.str s => !(s == "")
  | PyValue.int n => !(n == 0)
  | PyValue.boolVal b => b
  | PyValue.noneVal => false

/-- Whether a value is a string. -/
def PyValue.isStr : PyValue → Bool
  | PyValue.str _ => true
  | _ => false

/-- The two config keys the CLI reads, each optionally present and holding an
arbitrary value: src/main.py line 46 documents the intended shape, but nothing
in `load_ama_config` enforces key types. -/
structure AmaConfigDoc where
  user_ref : Option PyValue
  caller_override : Option PyValue
deriving DecidableEq, Repr

/-- A successfully parsed JSON document: an object (dict), or any other valid
JSON value (number, string, list, ...), which json.loads returns as-is. -/
inductive JsonDoc where
  | obj (cfg : AmaConfigDoc)
  | nonObj (v : PyValue)
deriving DecidableEq, Repr

/-- Observable state of the config file on disk: missing, present but not
valid JSON, or parsed to a document. -/
inductive ConfigFile where
  | absent
  | unparsable
  | parsed (doc : JsonDoc)
deriving DecidableEq, Repr

/-- The empty dict returned by `load_ama_config` on failure. -/
def emptyConfig : AmaConfigDoc := ⟨none, none⟩

/-- Embeds `load_ama_config` (src/main.py lines 51-59) at the JSON level: the
empty dict when the file is absent or json.loads raises, otherwise the parsed
document as-is — even when it is not an object. -/
def load_ama_config (env : Option String) (fs : String → ConfigFile) : JsonDoc :=
  match fs (ama_config_path env) with
  | ConfigFile.absent => JsonDoc.obj emptyConfig
  | ConfigFile.unparsable => JsonDoc.obj emptyConfig
  | ConfigFile.parsed doc => doc

/-- The Python exception observable at this boundary: calling `.get` on a
loaded document that is not a dict raises AttributeError. -/
inductive PyError where
  | attributeError
deriving DecidableEq, Repr

/-- Embeds `cfg.get("caller_override")` (src/main.py line 64): the field when
the document is a dict, AttributeError otherwise. -/
def getCallerOverride : JsonDoc → Except PyError (Option PyValue)
  | JsonDoc.obj cfg => Except.ok cfg.caller_override
  | JsonDoc.nonObj _ => Except.error PyError.attributeError

/-- Embeds `cfg.get("user_ref")` (src/main.py line 69). -/
def getUserRef : JsonDoc → Except PyError (Option PyValue)
  | JsonDoc.obj cfg => Except.ok cfg.user_ref
  | JsonDoc.nonObj _ => Except.error PyError.attributeError

/-- Python `a or b` where `a` is the result of dict.get (None when the key is
absent): `b` when `a` is None or falsy, otherwise `a`'s value verbatim. -/
def pyOrVal (a : Option PyValue) (b : PyValue) : PyValue :=
  match a with
  | some v => if v.truthy then v else b
  | none => b

/-- Embeds `get_caller_from_config` (src/main.py lines 62-64) at the JSON
level: `load_ama_config().get("caller_override") or ARIVA_COORDINATOR`, which
raises AttributeError on a non-object document and returns a truthy non-string
value verbatim. -/
def get_caller_from_config (env : Option String) (fs : String → ConfigFile) :
    Except PyError PyValue :=
  match getCallerOverride (load_ama_config env fs) with
  | Except.ok v => Except.ok (pyOrVal v (PyValue.str ARIVA_COORDINATOR))
  | Except.error e => Except.error e

/-- Embeds `get_user_ref_from_config` (src/main.py lines 67-69) at the JSON
level. -/
def get_user_ref_from_config (env : Option String) (fs : String → ConfigFile) :
    Except PyError PyValue :=
  match getUserRef (load_ama_config env fs) with
  | Except.ok v => Except.ok (pyOrVal v (PyValue.str "ama_cli"))
  | Except.error e => Except.error e

end Py

/-- The ten CLI subcommands that dispatch through `handle_ariva_request`
(src/main.py, subcommand table lines 284-360). -/
inductive Sub where
  | createSession
  | getSession
  | closeSession
  | validate
  | completions
  | suggestions
  | updateContext
  | stats
  | config
  | cleanup
deriving DecidableEq, Repr

/-- The protocol method name each subcommand handler passes to
`handle_ariva_request` (the string literals at src/main.py lines 108, 119, 130,
144, 158, 177, 198, 209, 218, 239). -/
def methodOf : Sub → String
  | Sub.createSession => "create_session"
  | Sub.getSession => "get_session"
  | Sub.closeSession => "close_session"
  | Sub.validate => "validate_code"
  | Sub.completions => "get_completions"
  | Sub.suggestions => "get_suggestions"
  | Sub.updateContext => "update_context"
  | Sub.stats => "stats"
  | Sub.config => "config"
  | Sub.cleanup => "cleanup_stale"

/-- The create-session parser defines only `--user-ref` (src/main.py lines
289-291); there is no `--caller` flag, so `getattr(args, "caller", None)`
at line 105 always yields `None`. -/
def create_session_args_caller : Option String := none

/-- Parser default for create-session `--user-ref` (src/main.py line 290). -/
def create_session_user_ref_default : String := ""

/-- Embeds the request params built by `main_create_session` (src/main.py lines
103-110): `user_ref = args.user_ref or get_user_ref_from_config()`,
`caller = getattr(args, "caller", None) or get_caller_from_config()`. -/
def main_create_session_params (argsUserRef : String) (argsCaller : Option String)
    (env : Option String) (fs : String → ConfigFile) : Params :=
  [("user_ref", Value.str (pyOrStr argsUserRef (get_user_ref_from_config env fs))),
   ("caller", Value.str (pyOrOpt argsCaller (get_caller_from_config env fs)))]

/-- Embeds the request built by `main_close_session` (src/main.py lines
127-132): the caller sent is always `ARIVA_COORDINATOR`. -/
def main_close_session_request (argsSessionId : String) : String × Params :=
  ("close_session",
   [("session_id", Value.str argsSessionId),
    ("caller", Value.str ARIVA_COORDINATOR)])

/-- Embeds the request built by `main_validate` (src/main.py lines 140-144):
`code = args.code`, replaced by the file's contents when `--file` is given. -/
def main_validate_request (argsCode : String) (argsFile : Option String)
    (fileContents : String) : String × Params :=
  ("validate_code",
   [("code", Value.str (match argsFile with
      | some _ => fileContents
      | none => argsCode))])

/-- Parser default for validate `--code` (src/main.py line 305). -/
def validate_code_default : String := ""

/-- Embeds the request built by `main_completions` (src/main.py lines 155-166):
`line_context` falls back to the prefix (`args.line_context or args.prefix`). -/
def main_completions_request (argsSessionId prefixArg lineContextArg languageArg : String)
    (maxNArg : Int) : String × Params :=
  ("get_completions",
   [("session_id", Value.str argsSessionId),
    ("prefix", Value.str prefixArg),
    ("line_context", Value.str (pyOrStr lineContextArg prefixArg)),
    ("language", Value.str languageArg),
    ("max_n", Value.int maxNArg)])

/-- Embeds the request built by `main_suggestions` (src/main.py lines 174-184):
the kind argument is forwarded unchanged — the CLI performs no bounds check
(`--kind` is a bare `type=int` option, src/main.py line 323). -/
def main_suggestions_request (argsSessionId queryArg : String) (kindArg maxNArg : Int) :
    String × Params :=
  ("get_suggestions",
   [("session_id", Value.str argsSessionId),
    ("query", Value.str queryArg),
    ("kind", Value.int kindArg),
    ("max_n", Value.int maxNArg)])

/-- Embeds the request built by `main_update_context` (src/main.py lines
192-199): context comes from `--context` or the file, and the caller sent is
always `ARIVA_COORDINATOR`. -/
def main_update_context_request (argsSessionId argsContext : String)
    (argsFile : Option String) (fileContents : String) : String × Params :=
  ("update_context",
   [("session_id", Value.str argsSessionId),
    ("context", Value.str (match argsFile with
      | some _ => fileContents
      | none => argsContext)),
    ("caller", Value.str ARIVA_COORDINATOR)])

/-- Output channel of a subcommand's print call. -/
inductive OutStream where
  | stdout
  | stderr
deriving DecidableEq, Repr

/-- How the printed payload is rendered: `json.dumps(r, indent=2)` or the
human-readable validation rendering selected by validate `--human`
(src/main.py lines 148-151, 307). -/
inductive Rendering where
  | json
  | humanValidation
deriving DecidableEq, Repr

/-- Observable outcome of one subcommand invocation: where it printed, how the
payload was rendered, and the handler's return value (the process exit status). -/
structure CliOutcome where
  stream : OutStream
  rendering : Rendering
  exit : Nat
deriving DecidableEq, Repr

/-- The epilogue shared verbatim by the dispatching subcommand handlers
(e.g. src/main.py lines 111-115): on `"error" in r` print the object as JSON to
stderr and return 1, otherwise print it as JSON to stdout and return 0. -/
def emitStandard (r : Response) : CliOutcome :=
  if r.isErr then ⟨OutStream.stderr, Rendering.json, 1⟩
  else ⟨OutStream.stdout, Rendering.json, 0⟩

/-- Per-subcommand outcome, translated from the ten `main_*` handlers
(src/main.py lines 103-244).  Only `main_validate` deviates from the shared
epilogue: on success with `--human` it prints the human-readable rendering
instead of JSON (lines 148-151); the flag exists only on the validate parser. -/
def subcommandOutcome : Sub → Bool → Response → CliOutcome
  | Sub.validate, human, r =>
      if r.isErr then ⟨OutStream.stderr, Rendering.json, 1⟩
      else if human then ⟨OutStream.stdout, Rendering.humanValidation, 0⟩
      else ⟨OutStream.stdout, Rendering.json, 0⟩
  | _, _, r => emitStandard r

/-- Platform-allocation counting model of `create_ariva`: returns a fresh handle
and bumps the process-wide allocation counter. -/
def create_ariva_counted (allocs : Nat) : Platform × Nat :=
  (create_ariva, allocs + 1)

/-- A subcommand handler's engine interaction: every `main_*` handler calls
`handle_ariva_request` on the platform handle it received as its first argument,
with its fixed method name (src/main.py lines 103-244); none of them allocates a
platform or consults global state. -/
def runSub (c : Sub) (platform : Platform) (ps : Params) : Response × Platform :=
  handle_ariva_request platform (methodOf c) ps

/-- Embeds `main` (src/main.py lines 377-381): parse args, create the platform
once, then run the selected subcommand handler with the handle passed
explicitly; the allocation counter starts at 0 for the process. -/
def mainCounted (c : Sub) (ps : Params) : (Response × Platform) × Nat :=
  let hp := create_ariva_counted 0
  (runSub c hp.fst ps, hp.snd)

/-! Simulation harness (spec section 4.5) and store invariants. -/

/-- Number of active sessions in the store. -/
def countActive (p : Platform) : Nat :=
  p.sessions.countP (fun s => s.status == Status.active)

/-- Store well-formedness: every stored session's id is below the allocation
counter (true of every state reachable from `create_ariva`, since ids are
allocated from the counter). -/
def Wf (p : Platform) : Prop :=
  ∀ s ∈ p.sessions, s.session_id < p.nextId

/-- Aggregate counts reported by the simulation harness. -/
structure SimReport where
  sessions_created : Nat
  sessions_closed : Nat
deriving DecidableEq, Repr

/-- Modelled from the spec: one scripted session exercise of
`run_ariva_simulation` (spec section 4.5): create a session as the coordinator,
then a fixed validate / completions / suggestions / update-context sequence,
then close it; reports (created, closed) increments. -/
def simOne (p : Platform) (i : Nat) : (Nat × Nat) × Platform :=
  let sp := createOp p ("sim_user_" ++ Nat.repr i) ARIVA_COORDINATOR
  let sid := sp.fst.session_id
  let p2 := (validateOp sp.snd "def f(): pass").snd
  let p3 := (completionsOp p2 sid "im" "im" "py" 5).snd
  let p4 := (suggestionsOp p3 sid "fix" 0 5).snd
  let p5 := (updateContextOp p4 sid ("project: sim_" ++ Nat.repr i) ARIVA_COORDINATOR).snd
  let rp := closeOp p5 sid ARIVA_COORDINATOR
  ((1, if Response.isErr rp.fst then 0 else 1), rp.snd)

/-- Loop of the simulation harness: one scripted exercise per session,
accumulating the report. -/
def runSimAux : Nat → Platform → SimReport → SimReport × Platform
  | 0, p, acc => (acc, p)
  | Nat.succ k, p, acc =>
      let r := simOne p acc.sessions_created
      runSimAux k r.snd ⟨acc.sessions_created + r.fst.fst, acc.sessions_closed + r.fst.snd⟩

/-- Modelled from the spec: `run_ariva_simulation` (spec section 4.5): creates
`numSessions` sessions, runs the fixed script against each, and returns the
aggregate report together with the final platform state. -/
def run_ariva_simulation (p : Platform) (numSessions : Nat) : SimReport × Platform :=
  runSimAux numSessions p ⟨0, 0⟩

/-! Helper lemmas about the store operations. -/

/-- The authorization test used by close and update-context, read back as a
proposition: exact match with the session's caller or the coordinator. -/
theorem authCond (caller target : String) :
    (caller == target || caller == ARIVA_COORDINATOR) = true ↔
      (caller = target ∨ caller = ARIVA_COORDINATOR) := by
  simp

/-- Characterization of `closeOp` on a live session: authorization is an exact
identity match with the session's caller or the coordinator. -/
theorem closeOp_found (p : Platform) (sid : Nat) (caller : String) (s : Session)
    (hfind : findActive p sid = some s) :
    closeOp p sid caller =
      if caller = s.caller ∨ caller = ARIVA_COORDINATOR then
        (Response.ok [("closed", Value.str "true"),
                      ("session_id", Value.str (Nat.repr sid))],
         { p with sessions := mapOn p.sessions sid (fun t => { t with status := Status.closed }) })
      else
        (Response.err ⟨ErrKind.unauthorized, "caller mismatch", none⟩, p) := by
  unfold closeOp
  simp only [hfind]
  by_cases h : caller = s.caller ∨ caller = ARIVA_COORDINATOR
  · rw [if_pos ((authCond caller s.caller).mpr h), if_pos h]
  · rw [if_neg (by simpa using (authCond caller s.caller).not.mpr h), if_neg h]

/-- Characterization of `updateContextOp` on a live session: the authorization
check is identical to `closeOp`. -/
theorem updateContextOp_found (p : Platform) (sid : Nat) (ctx caller : String) (s : Session)
    (hfind : findActive p sid = some s) :
    updateContextOp p sid ctx caller =
      if caller = s.caller ∨ caller = ARIVA_COORDINATOR then
        (Response.ok [("updated", Value.str "true"),
                      ("session_id", Value.str (Nat.repr sid))],
         { p with sessions :=
             mapOn p.sessions sid (fun t => { t with context := ctx, last_active_at := p.now }) })
      else
        (Response.err ⟨ErrKind.unauthorized, "caller mismatch", none⟩, p) := by
  unfold updateContextOp
  simp only [hfind]
  by_cases h : caller = s.caller ∨ caller = ARIVA_COORDINATOR
  · rw [if_pos ((authCond caller s.caller).mpr h), if_pos h]
  · rw [if_neg (by simpa using (authCond caller s.caller).not.mpr h), if_neg h]

/-! Claim theorems. -/

/-- C3: each CLI subcommand invokes `handle_ariva_request` with exactly the
corresponding protocol method name (create-session with "create_session", ...,
cleanup with "cleanup_stale"), and every dispatched method name is in the
router's fixed registry — no subcommand sends a name outside that set. -/
theorem C3_subcommand_method_names :
    methodOf Sub.createSession = "create_session" ∧
    methodOf Sub.getSession = "get_session" ∧
    methodOf Sub.closeSession = "close_session" ∧
    methodOf Sub.validate = "validate_code" ∧
    methodOf Sub.completions = "get_completions" ∧
    methodOf Sub.suggestions = "get_suggestions" ∧
    methodOf Sub.updateContext = "update_context" ∧
    methodOf Sub.stats = "stats" ∧
    methodOf Sub.config = "config" ∧
    methodOf Sub.cleanup = "cleanup_stale" ∧
    ∀ c : Sub, (registry.find? (fun kv => kv.fst == methodOf c)).isSome = true := by
  refine ⟨rfl, rfl, rfl, rfl, rfl, rfl, rfl, rfl, rfl, rfl, ?_⟩
  intro c
  cases c <;> decide

/-- C8: the CLI process calls `create_ariva` exactly once (in `main`, after
argument parsing) and passes the resulting handle explicitly to the selected
subcommand handler; no handler allocates a second platform handle or reaches
the engine except through the handle it was given. -/
theorem C8_single_platform_handle :
    ∀ (c : Sub) (ps : Params),
      (mainCounted c ps).snd = 1 ∧
      (mainCounted c ps).fst = handle_ariva_request create_ariva (methodOf c) ps :=
  fun _ _ => ⟨rfl, rfl⟩

/-- C9 counterexample: a config file whose contents are the valid JSON `42`
(not an object) makes both getters raise AttributeError at the `.get` call
rather than return a string, and a config object whose caller_override is the
number 42 makes `get_caller_from_config` return that non-string value verbatim
— refuting "always returns a string ... without raising" as stated. -/
theorem C9_counterexample_nonstring_config :
    Py.get_caller_from_config none
        (fun _ => Py.ConfigFile.parsed (Py.JsonDoc.nonObj (Py.PyValue.int 42))) =
      Except.error Py.PyError.attributeError ∧
    Py.get_user_ref_from_config none
        (fun _ => Py.ConfigFile.parsed (Py.JsonDoc.nonObj (Py.PyValue.int 42))) =
      Except.error Py.PyError.attributeError ∧
    Py.get_caller_from_config none
        (fun _ => Py.ConfigFile.parsed (Py.JsonDoc.obj ⟨none, some (Py.PyValue.int 42)⟩)) =
      Except.ok (Py.PyValue.int 42) ∧
    Py.PyValue.isStr (Py.PyValue.int 42) = false := by
  exact ⟨rfl, rfl, rfl, rfl⟩

/-- C9 (amended): `load_ama_config` returns the empty mapping whenever the
config file (path from AMA_CONFIG, default "ama_config.json") is absent or its
contents fail to parse as JSON, and then the getters return the string
fallbacks ARIVA_COORDINATOR and "ama_cli"; but when the file parses to valid
non-object JSON both getters raise AttributeError at the `.get` call, and when
it parses to an object they return the configured value verbatim whenever it
is truthy — whatever its type — falling back to the default strings otherwise. -/
theorem C9_config_loading_refined :
    ama_config_path none = "ama_config.json" ∧
    ∀ (env : Option String) (fs : String → Py.ConfigFile),
      ((fs (ama_config_path env) = Py.ConfigFile.absent ∨
        fs (ama_config_path env) = Py.ConfigFile.unparsable) →
        Py.load_ama_config env fs = Py.JsonDoc.obj Py.emptyConfig ∧
        Py.get_caller_from_config env fs = Except.ok (Py.PyValue.str ARIVA_COORDINATOR) ∧
        Py.get_user_ref_from_config env fs = Except.ok (Py.PyValue.str "ama_cli")) ∧
      (∀ v : Py.PyValue,
        fs (ama_config_path env) = Py.ConfigFile.parsed (Py.JsonDoc.nonObj v) →
        Py.get_caller_from_config env fs = Except.error Py.PyError.attributeError ∧
        Py.get_user_ref_from_config env fs = Except.error Py.PyError.attributeError) ∧
      (∀ cfg : Py.AmaConfigDoc,
        fs (ama_config_path env) = Py.ConfigFile.parsed (Py.JsonDoc.obj cfg) →
        Py.get_caller_from_config env fs =
          Except.ok (match cfg.caller_override with
            | some v => if Py.PyValue.truthy v then v else Py.PyValue.str ARIVA_COORDINATOR
            | none => Py.PyValue.str ARIVA_COORDINATOR) ∧
        Py.get_user_ref_from_config env fs =
          Except.ok (match cfg.user_ref with
            | some v => if Py.PyValue.truthy v then v else Py.PyValue.str "ama_cli"
            | none => Py.PyValue.str "ama_cli")) := by
  refine ⟨rfl, ?_⟩
  intro env fs
  refine ⟨?_, ?_, ?_⟩
  · intro h
    have hl : Py.load_ama_config env fs = Py.JsonDoc.obj Py.emptyConfig := by
      unfold Py.load_ama_config
      rcases h with h | h <;> rw [h]
    refine ⟨hl, ?_, ?_⟩
    · unfold Py.get_caller_from_config
      rw [hl]
      rfl
    · unfold Py.get_user_ref_from_config
      rw [hl]
      rfl
  · intro v h
    have hl : Py.load_ama_config env fs = Py.JsonDoc.nonObj v := by
      unfold Py.load_ama_config
      rw [h]
    constructor
    · unfold Py.get_caller_from_config
      rw [hl]
      rfl
    · unfold Py.get_user_ref_from_config
      rw [hl]
      rfl
  · intro cfg h
    have hl : Py.load_ama_config env fs = Py.JsonDoc.obj cfg := by
      unfold Py.load_ama_config
      rw [h]
    constructor
    · unfold Py.get_caller_from_config
      rw [hl]
      rfl
    · unfold Py.get_user_ref_from_config
      rw [hl]
      rfl

/-- Witness for C9 (amended) at concrete inputs: an absent config file, a file
holding the valid non-object JSON 42, and an object config with a non-string
caller_override. -/
theorem C9_config_loading_refined_witness :
    (Py.load_ama_config none (fun _ => Py.ConfigFile.absent) =
       Py.JsonDoc.obj Py.emptyConfig ∧
     Py.get_caller_from_config none (fun _ => Py.ConfigFile.absent) =
       Except.ok (Py.PyValue.str ARIVA_COORDINATOR) ∧
     Py.get_user_ref_from_config none (fun _ => Py.ConfigFile.absent) =
       Except.ok (Py.PyValue.str "ama_cli")) ∧
    (Py.get_caller_from_config none
        (fun _ => Py.ConfigFile.parsed (Py.JsonDoc.nonObj (Py.PyValue.int 42))) =
       Except.error Py.PyError.attributeError ∧
     Py.get_user_ref_from_config none
        (fun _ => Py.ConfigFile.parsed (Py.JsonDoc.nonObj (Py.PyValue.int 42))) =
       Except.error Py.PyError.attributeError) ∧
    Py.get_caller_from_config none
        (fun _ => Py.ConfigFile.parsed
          (Py.JsonDoc.obj ⟨some (Py.PyValue.str "bob"), some (Py.PyValue.int 42)⟩)) =
      Except.ok (Py.PyValue.int 42) := by
  refine ⟨(C9_config_loading_refined.2 none (fun _ => Py.ConfigFile.absent)).1 (Or.inl rfl),
          (C9_config_loading_refined.2 none
            (fun _ => Py.ConfigFile.parsed (Py.JsonDoc.nonObj (Py.PyValue.int 42)))).2.1
            (Py.PyValue.int 42) rfl, ?_⟩
  exact ((C9_config_loading_refined.2 none
    (fun _ => Py.ConfigFile.parsed
      (Py.JsonDoc.obj ⟨some (Py.PyValue.str "bob"), some (Py.PyValue.int 42)⟩))).2.2
    ⟨some (Py.PyValue.str "bob"), some (Py.PyValue.int 42)⟩ rfl).1

/-- C7: the create-session subcommand sends as user_ref the --user-ref argument
when non-empty, else the config file's user_ref when present and non-empty,
else "ama_cli"; and as caller always the config file's caller_override when
present and non-empty, else ARIVA_COORDINATOR (there is no --caller flag, so
the args contribution to the caller is always absent). -/
theorem C7_create_session_identity_defaults :
    ∀ (argsUserRef : String) (env : Option String) (fs : String → ConfigFile),
      main_create_session_params argsUserRef create_session_args_caller env fs =
        [("user_ref", Value.str
           (if argsUserRef = "" then
              (match (load_ama_config env fs).user_ref with
               | some u => if u = "" then "ama_cli" else u
               | none => "ama_cli")
            else argsUserRef)),
         ("caller", Value.str
           (match (load_ama_config env fs).caller_override with
            | some c => if c = "" then ARIVA_COORDINATOR else c
            | none => ARIVA_COORDINATOR))] := by
  intro a env fs
  rfl

/-- C10: the validate subcommand always includes a "code" key in the dispatched
validate_code request — the file's contents when --file is given, otherwise the
--code value, whose parser default is the empty string — so dispatching the
request never produces the InvalidParams-missing-code failure. -/
theorem C10_validate_always_sends_code :
    validate_code_default = "" ∧
    ∀ (argsCode : String) (argsFile : Option String) (fileContents : String) (p : Platform),
      (main_validate_request argsCode argsFile fileContents).fst = "validate_code" ∧
      getParam (main_validate_request argsCode argsFile fileContents).snd "code" =
        some (Value.str (match argsFile with
          | some _ => fileContents
          | none => argsCode)) ∧
      Response.isErr
        (handle_ariva_request p "validate_code"
          (main_validate_request argsCode argsFile fileContents).snd).fst = false := by
  refine ⟨rfl, ?_⟩
  intro code f fc p
  refine ⟨rfl, ?_, ?_⟩
  · cases f <;> rfl
  · cases f <;> rfl

/-- C2 counterexample: the validate subcommand with --human on a success
response (no "error" key) does not print the result mapping as JSON to stdout —
it prints the human-readable rendering — so the claim fails as stated for the
validate subcommand. -/
theorem C2_counterexample_validate_human :
    Response.isErr (Response.ok [("valid", Value.str "true")]) = false ∧
    subcommandOutcome Sub.validate true (Response.ok [("valid", Value.str "true")]) ≠
      ⟨OutStream.stdout, Rendering.json, 0⟩ := by
  exact ⟨rfl, by decide⟩

/-- C2 (amended): for every subcommand that dispatches through
`handle_ariva_request`, if the response contains "error" the CLI prints the
error object as JSON to stderr and returns exit status 1; otherwise it prints
to stdout and returns exit status 0, rendering the result mapping as JSON in
every case except the validate subcommand with --human, which prints the
human-readable validation rendering. -/
theorem C2_envelope_printing :
    ∀ (c : Sub) (human : Bool) (r : Response),
      subcommandOutcome c human r =
        if Response.isErr r then ⟨OutStream.stderr, Rendering.json, 1⟩
        else if c = Sub.validate ∧ human = true then
          ⟨OutStream.stdout, Rendering.humanValidation, 0⟩
        else ⟨OutStream.stdout, Rendering.json, 0⟩ := by
  intro c h r
  cases c <;> cases h <;> cases r <;>
    simp [subcommandOutcome, emitStandard, Response.isErr]

/-- C1: close_session and update_context succeed on a live session exactly when
the supplied caller matches the session's original caller or the coordinator
identity; a wrong caller gets Unauthorized and the platform state — hence the
session's active status — is unchanged.  The CLI's close-session and
update-context subcommands always send ARIVA_COORDINATOR as the caller. -/
theorem C1_close_update_authorization :
    (∀ sidStr : String,
       getParam (main_close_session_request sidStr).snd "caller" =
         some (Value.str ARIVA_COORDINATOR)) ∧
    (∀ (sidStr ctxArg : String) (argsFile : Option String) (fc : String),
       getParam (main_update_context_request sidStr ctxArg argsFile fc).snd "caller" =
         some (Value.str ARIVA_COORDINATOR)) ∧
    ∀ (p : Platform) (sid : Nat) (caller : String) (s : Session),
      findActive p sid = some s →
      (Response.isErr (closeOp p sid caller).fst = false ↔
        (caller = s.caller ∨ caller = ARIVA_COORDINATOR)) ∧
      (∀ ctx : String,
        (Response.isErr (updateContextOp p sid ctx caller).fst = false ↔
          (caller = s.caller ∨ caller = ARIVA_COORDINATOR))) ∧
      (¬(caller = s.caller ∨ caller = ARIVA_COORDINATOR) →
        closeOp p sid caller =
          (Response.err ⟨ErrKind.unauthorized, "caller mismatch", none⟩, p) ∧
        ∀ ctx : String,
          updateContextOp p sid ctx caller =
            (Response.err ⟨ErrKind.unauthorized, "caller mismatch", none⟩, p)) := by
  refine ⟨fun _ => rfl, fun _ _ af _ => by cases af <;> rfl, ?_⟩
  intro p sid caller s hfind
  refine ⟨?_, ?_, ?_⟩
  · rw [closeOp_found p sid caller s hfind]
    by_cases h : caller = s.caller ∨ caller = ARIVA_COORDINATOR
    · simp [h, Response.isErr]
    · simp [h, Response.isErr]
  · intro ctx
    rw [updateContextOp_found p sid ctx caller s hfind]
    by_cases h : caller = s.caller ∨ caller = ARIVA_COORDINATOR
    · simp [h, Response.isErr]
    · simp [h, Response.isErr]
  · intro h
    rw [closeOp_found p sid caller s hfind, if_neg h]
    refine ⟨rfl, ?_⟩
    intro ctx
    rw [updateContextOp_found p sid ctx caller s hfind, if_neg h]

/-- Witness for C1: a platform with one session created by caller "C1"; the
wrong caller "C2" is rejected with Unauthorized and the state is unchanged. -/
theorem C1_close_update_authorization_witness :
    findActive (createOp create_ariva "alice" "C1").snd 0 =
      some ⟨0, "alice", "C1", 0, 0, "", Status.active⟩ ∧
    (Response.isErr (closeOp (createOp create_ariva "alice" "C1").snd 0 "C2").fst = false ↔
      ("C2" = "C1" ∨ "C2" = ARIVA_COORDINATOR)) ∧
    (¬("C2" = "C1" ∨ "C2" = ARIVA_COORDINATOR) →
      closeOp (createOp create_ariva "alice" "C1").snd 0 "C2" =
        (Response.err ⟨ErrKind.unauthorized, "caller mismatch", none⟩,
         (createOp create_ariva "alice" "C1").snd)) := by
  have h := C1_close_update_authorization.2.2
    (createOp create_ariva "alice" "C1").snd 0 "C2"
    ⟨0, "alice", "C1", 0, 0, "", Status.active⟩ (by decide)
  exact ⟨by decide, h.1, fun hn => (h.2.2 hn).1⟩

/-- C5: the suggestions subcommand forwards any integer --kind unchanged (no
CLI-side bounds check), and for every live session a get_suggestions request
whose kind lies outside the documented enumeration 0-3 fails with InvalidParams
naming the field "kind", leaving the platform unchanged. -/
theorem C5_suggestions_kind_bounds :
    (∀ (sidStr q : String) (kind mn : Int),
       getParam (main_suggestions_request sidStr q kind mn).snd "kind" =
         some (Value.int kind)) ∧
    ∀ (p : Platform) (sidStr q : String) (kind mn : Int) (sid : Nat) (s : Session),
      parseNat sidStr = some sid →
      findActive p sid = some s →
      (kind < 0 ∨ 3 < kind) →
      handle_ariva_request p (main_suggestions_request sidStr q kind mn).fst
          (main_suggestions_request sidStr q kind mn).snd =
        (Response.err ⟨ErrKind.invalidParams, "kind out of range", some "kind"⟩, p) := by
  refine ⟨fun _ _ _ _ => rfl, ?_⟩
  intro p sidStr q kind mn sid s hsid hfind hkind
  have h1 : handle_ariva_request p (main_suggestions_request sidStr q kind mn).fst
      (main_suggestions_request sidStr q kind mn).snd =
      handle_get_suggestions p (main_suggestions_request sidStr q kind mn).snd := rfl
  have h2 : sidOfParams (main_suggestions_request sidStr q kind mn).snd = parseNat sidStr := rfl
  rw [h1]
  unfold handle_get_suggestions
  rw [h2, hsid]
  have h3 : strParam (main_suggestions_request sidStr q kind mn).snd "query" = some q := rfl
  have h4 : intParam (main_suggestions_request sidStr q kind mn).snd "kind" = some kind := rfl
  have h5 : intParam (main_suggestions_request sidStr q kind mn).snd "max_n" = some mn := rfl
  simp only [h3, h4, h5]
  unfold suggestionsOp
  simp only [hfind]
  rcases hkind with h | h
  · simp [h]
  · simp [h]

/-- Witness for C5: session 0 created on a fresh platform, queried with
kind = 99 exactly as in the spec scenario. -/
theorem C5_suggestions_kind_bounds_witness :
    parseNat "0" = some 0 ∧
    findActive (createOp create_ariva "alice" "C1").snd 0 =
      some ⟨0, "alice", "C1", 0, 0, "", Status.active⟩ ∧
    ((99 : Int) < 0 ∨ (3 : Int) < 99) ∧
    handle_ariva_request (createOp create_ariva "alice" "C1").snd
        (main_suggestions_request "0" "fix" 99 5).fst
        (main_suggestions_request "0" "fix" 99 5).snd =
      (Response.err ⟨ErrKind.invalidParams, "kind out of range", some "kind"⟩,
       (createOp create_ariva "alice" "C1").snd) := by
  refine ⟨by decide, by decide, by decide, ?_⟩
  exact C5_suggestions_kind_bounds.2 (createOp create_ariva "alice" "C1").snd "0" "fix" 99 5 0
    ⟨0, "alice", "C1", 0, 0, "", Status.active⟩ (by decide) (by decide) (by decide)

/-- C6: `cleanup_stale` closes exactly the set of active sessions whose idle
time exceeds the configured threshold (the reported count is the number of
such sessions, each of them is closed in place, and every other session is left
entirely unchanged — in particular still active); and a second sweep with no
intervening activity closes zero additional sessions. -/
theorem C6_cleanup_stale_exact :
    ∀ p : Platform,
      (sweepOp p).fst = p.sessions.countP (isStale p.now p.idleThreshold) ∧
      (∀ (i : Nat) (s : Session), p.sessions[i]? = some s →
        (sweepOp p).snd.sessions[i]? =
          some (if isStale p.now p.idleThreshold s then { s with status := Status.closed }
                else s)) ∧
      (sweepOp (sweepOp p).snd).fst = 0 := by
  intro p
  refine ⟨?_, ?_, ?_⟩
  · simp [sweepOp, List.countP_eq_length_filter]
  · intro i s hi
    show (List.map _ p.sessions)[i]? = _
    rw [List.getElem?_map, hi]
    rfl
  · show (List.filter _ (List.map _ p.sessions)).length = 0
    rw [List.length_eq_zero, List.filter_eq_nil_iff]
    intro a ha
    rcases List.mem_map.mp ha with ⟨t, _, rfl⟩
    by_cases hst : isStale p.now p.idleThreshold t = true
    · rw [if_pos hst]
      show ¬ isStale p.now p.idleThreshold { t with status := Status.closed } = true
      simp [isStale]
    · rw [if_neg hst]
      show ¬ isStale p.now p.idleThreshold t = true
      exact hst

/-- Witness for C6: a platform holding one stale active session (idle 5000
ticks against a 3600-tick threshold) and one fresh active session: the sweep
reports one closed, closes exactly the stale one, keeps the fresh one active,
and a second sweep closes nothing. -/
theorem C6_cleanup_stale_exact_witness :
    (sweepOp ⟨[⟨0, "u", "c", 0, 0, "", Status.active⟩,
               ⟨1, "v", "c", 5000, 5000, "", Status.active⟩], 2, 5000, 3600, 2⟩).fst =
      List.countP (isStale 5000 3600)
        [⟨0, "u", "c", 0, 0, "", Status.active⟩,
         ⟨1, "v", "c", 5000, 5000, "", Status.active⟩] ∧
    ([⟨0, "u", "c", 0, 0, "", Status.active⟩,
      ⟨1, "v", "c", 5000, 5000, "", Status.active⟩] : List Session)[0]? =
        some ⟨0, "u", "c", 0, 0, "", Status.active⟩ ∧
    (sweepOp ⟨[⟨0, "u", "c", 0, 0, "", Status.active⟩,
               ⟨1, "v", "c", 5000, 5000, "", Status.active⟩], 2, 5000, 3600, 2⟩).snd.sessions[0]? =
      some (if isStale 5000 3600 ⟨0, "u", "c", 0, 0, "", Status.active⟩ then
              { (⟨0, "u", "c", 0, 0, "", Status.active⟩ : Session) with status := Status.closed }
            else ⟨0, "u", "c", 0, 0, "", Status.active⟩) ∧
    (sweepOp (sweepOp ⟨[⟨0, "u", "c", 0, 0, "", Status.active⟩,
                        ⟨1, "v", "c", 5000, 5000, "", Status.active⟩],
                       2, 5000, 3600, 2⟩).snd).fst = 0 := by
  have h := C6_cleanup_stale_exact
    ⟨[⟨0, "u", "c", 0, 0, "", Status.active⟩,
      ⟨1, "v", "c", 5000, 5000, "", Status.active⟩], 2, 5000, 3600, 2⟩
  exact ⟨h.1, by decide, h.2.1 0 ⟨0, "u", "c", 0, 0, "", Status.active⟩ (by decide), h.2.2⟩

/-! Machinery for the simulation claim: every store operation of the scripted
exercise acts only on the freshly created session when all pre-existing ids
differ from it. -/

/-- Finding a live session in `xs ++ [s0]` returns `s0` when no session of `xs`
carries its id and `s0` is active. -/
theorem find_fresh (xs : List Session) (s0 : Session) (sid : Nat)
    (hsid : s0.session_id = sid)
    (hxs : ∀ x ∈ xs, x.session_id ≠ sid) (hact : s0.status = Status.active) :
    List.find? (fun s => s.session_id == sid && s.status == Status.active) (xs ++ [s0]) =
      some s0 := by
  induction xs with
  | nil =>
      apply List.find?_cons_of_pos
      simp [hsid, hact]
  | cons x xs ih =>
      rw [List.cons_append]
      rw [List.find?_cons_of_neg]
      · exact ih (fun y hy => hxs y (List.mem_cons_of_mem x hy))
      · simp [hxs x (List.mem_cons_self x xs)]

/-- A per-session update keyed to a fresh id leaves `xs` untouched and rewrites
only the appended session. -/
theorem mapOn_fresh (xs : List Session) (s0 : Session) (sid : Nat) (f : Session → Session)
    (hsid : s0.session_id = sid) (hxs : ∀ x ∈ xs, x.session_id ≠ sid) :
    mapOn (xs ++ [s0]) sid f = xs ++ [f s0] := by
  unfold mapOn
  rw [List.map_append]
  congr 1
  · have hid : ∀ x ∈ xs, (if x.session_id == sid then f x else x) = x := by
      intro x hx
      rw [if_neg]
      simp [hxs x hx]
    calc xs.map (fun s => if s.session_id == sid then f s else s)
        = xs.map id := List.map_congr_left (by intro a ha; simpa using hid a ha)
      _ = xs := List.map_id xs
  · simp [hsid]

/-- `findActive` on a platform whose store is `xs ++ [s0]` finds `s0`. -/
theorem findActive_fresh (q : Platform) (xs : List Session) (s0 : Session) (sid : Nat)
    (hq : q.sessions = xs ++ [s0]) (hsid : s0.session_id = sid)
    (hxs : ∀ x ∈ xs, x.session_id ≠ sid) (hact : s0.status = Status.active) :
    findActive q sid = some s0 := by
  unfold findActive
  rw [hq]
  exact find_fresh xs s0 sid hsid hxs hact

/-- `completionsOp` against the fresh session: success, and only that session is
touched. -/
theorem completionsOp_fresh (q : Platform) (xs : List Session) (s0 : Session) (sid : Nat)
    (hq : q.sessions = xs ++ [s0]) (hsid : s0.session_id = sid)
    (hxs : ∀ x ∈ xs, x.session_id ≠ sid) (hact : s0.status = Status.active)
    (preArg lc lang : String) (mn : Int) :
    completionsOp q sid preArg lc lang mn =
      (Response.ok [("completions", Value.int 0)],
       { q with sessions := xs ++ [{ s0 with last_active_at := q.now }] }) := by
  unfold completionsOp
  simp only [findActive_fresh q xs s0 sid hq hsid hxs hact]
  rw [hq, mapOn_fresh xs s0 sid _ hsid hxs]

/-- `suggestionsOp` with the in-range kind 0 against the fresh session. -/
theorem suggestionsOp_fresh (q : Platform) (xs : List Session) (s0 : Session) (sid : Nat)
    (hq : q.sessions = xs ++ [s0]) (hsid : s0.session_id = sid)
    (hxs : ∀ x ∈ xs, x.session_id ≠ sid) (hact : s0.status = Status.active)
    (query : String) (mn : Int) :
    suggestionsOp q sid query 0 mn =
      (Response.ok [("suggestions", Value.int 0)],
       { q with sessions := xs ++ [{ s0 with last_active_at := q.now }] }) := by
  unfold suggestionsOp
  simp only [findActive_fresh q xs s0 sid hq hsid hxs hact]
  rw [if_neg (by decide)]
  rw [hq, mapOn_fresh xs s0 sid _ hsid hxs]

/-- `updateContextOp` as the coordinator against the fresh session. -/
theorem updateContextOp_coord_fresh (q : Platform) (xs : List Session) (s0 : Session)
    (sid : Nat) (hq : q.sessions = xs ++ [s0]) (hsid : s0.session_id = sid)
    (hxs : ∀ x ∈ xs, x.session_id ≠ sid) (hact : s0.status = Status.active) (ctx : String) :
    updateContextOp q sid ctx ARIVA_COORDINATOR =
      (Response.ok [("updated", Value.str "true"),
                    ("session_id", Value.str (Nat.repr sid))],
       { q with sessions := xs ++ [{ s0 with context := ctx, last_active_at := q.now }] }) := by
  unfold updateContextOp
  simp only [findActive_fresh q xs s0 sid hq hsid hxs hact]
  rw [if_pos (by simp)]
  rw [hq, mapOn_fresh xs s0 sid _ hsid hxs]

/-- `closeOp` as the coordinator against the fresh session. -/
theorem closeOp_coord_fresh (q : Platform) (xs : List Session) (s0 : Session)
    (sid : Nat) (hq : q.sessions = xs ++ [s0]) (hsid : s0.session_id = sid)
    (hxs : ∀ x ∈ xs, x.session_id ≠ sid) (hact : s0.status = Status.active) :
    closeOp q sid ARIVA_COORDINATOR =
      (Response.ok [("closed", Value.str "true"),
                    ("session_id", Value.str (Nat.repr sid))],
       { q with sessions := xs ++ [{ s0 with status := Status.closed }] }) := by
  unfold closeOp
  simp only [findActive_fresh q xs s0 sid hq hsid hxs hact]
  rw [if_pos (by simp)]
  rw [hq, mapOn_fresh xs s0 sid _ hsid hxs]

/-- The session record as it stands at the end of one simulation step: created
by the coordinator, context updated by the script, then closed. -/
def simSession (p : Platform) (i : Nat) : Session :=
  { session_id := p.nextId, user_ref := "sim_user_" ++ Nat.repr i,
    caller := ARIVA_COORDINATOR, created_at := p.now, last_active_at := p.now,
    context := "project: sim_" ++ Nat.repr i, status := Status.closed }

/-- One simulation step on a well-formed platform: reports one created and one
closed, appends exactly the closed scripted session, and leaves every
pre-existing session untouched. -/
theorem simOne_eq (p : Platform) (i : Nat) (hwf : Wf p) :
    simOne p i =
      ((1, 1),
       { p with sessions := p.sessions ++ [simSession p i],
                nextId := p.nextId + 1, totalCreated := p.totalCreated + 1 }) := by
  obtain ⟨ss, n, now, thr, tc⟩ := p
  have hfresh : ∀ x ∈ ss, x.session_id ≠ n := fun x hx => Nat.ne_of_lt (hwf x hx)
  have h2 : completionsOp
      ⟨ss ++ [⟨n, "sim_user_" ++ Nat.repr i, ARIVA_COORDINATOR, now, now, "",
        Status.active⟩], n + 1, now, thr, tc + 1⟩ n "im" "im" "py" 5 =
      (Response.ok [("completions", Value.int 0)],
       ⟨ss ++ [⟨n, "sim_user_" ++ Nat.repr i, ARIVA_COORDINATOR, now, now, "",
         Status.active⟩], n + 1, now, thr, tc + 1⟩) :=
    completionsOp_fresh _ ss
      ⟨n, "sim_user_" ++ Nat.repr i, ARIVA_COORDINATOR, now, now, "", Status.active⟩ n
      rfl rfl hfresh rfl "im" "im" "py" 5
  have h3 : suggestionsOp
      ⟨ss ++ [⟨n, "sim_user_" ++ Nat.repr i, ARIVA_COORDINATOR, now, now, "",
        Status.active⟩], n + 1, now, thr, tc + 1⟩ n "fix" 0 5 =
      (Response.ok [("suggestions", Value.int 0)],
       ⟨ss ++ [⟨n, "sim_user_" ++ Nat.repr i, ARIVA_COORDINATOR, now, now, "",
         Status.active⟩], n + 1, now, thr, tc + 1⟩) :=
    suggestionsOp_fresh _ ss
      ⟨n, "sim_user_" ++ Nat.repr i, ARIVA_COORDINATOR, now, now, "", Status.active⟩ n
      rfl rfl hfresh rfl "fix" 5
  have h4 : updateContextOp
      ⟨ss ++ [⟨n, "sim_user_" ++ Nat.repr i, ARIVA_COORDINATOR, now, now, "",
        Status.active⟩], n + 1, now, thr, tc + 1⟩ n
      ("project: sim_" ++ Nat.repr i) ARIVA_COORDINATOR =
      (Response.ok [("updated", Value.str "true"), ("session_id", Value.str (Nat.repr n))],
       ⟨ss ++ [⟨n, "sim_user_" ++ Nat.repr i, ARIVA_COORDINATOR, now, now,
         "project: sim_" ++ Nat.repr i, Status.active⟩], n + 1, now, thr, tc + 1⟩) :=
    updateContextOp_coord_fresh _ ss
      ⟨n, "sim_user_" ++ Nat.repr i, ARIVA_COORDINATOR, now, now, "", Status.active⟩ n
      rfl rfl hfresh rfl ("project: sim_" ++ Nat.repr i)
  have h5 : closeOp
      ⟨ss ++ [⟨n, "sim_user_" ++ Nat.repr i, ARIVA_COORDINATOR, now, now,
        "project: sim_" ++ Nat.repr i, Status.active⟩], n + 1, now, thr, tc + 1⟩ n
      ARIVA_COORDINATOR =
      (Response.ok [("closed", Value.str "true"), ("session_id", Value.str (Nat.repr n))],
       ⟨ss ++ [⟨n, "sim_user_" ++ Nat.repr i, ARIVA_COORDINATOR, now, now,
         "project: sim_" ++ Nat.repr i, Status.closed⟩], n + 1, now, thr, tc + 1⟩) :=
    closeOp_coord_fresh _ ss
      ⟨n, "sim_user_" ++ Nat.repr i, ARIVA_COORDINATOR, now, now,
        "project: sim_" ++ Nat.repr i, Status.active⟩ n
      rfl rfl hfresh rfl
  simp only [simOne, createOp, validateOp, h2, h3, h4, h5, Response.isErr]
  rfl

/-- Simulation-loop invariant: on a well-formed platform, `k` iterations append
exactly `k` closed sessions, keep the pre-existing sessions untouched, preserve
well-formedness, and add `k` to both report counters. -/
theorem runSimAux_spec :
    ∀ (k : Nat) (p : Platform) (acc : SimReport), Wf p →
      ∃ suffix : List Session,
        (runSimAux k p acc).snd.sessions = p.sessions ++ suffix ∧
        suffix.length = k ∧
        suffix.all (fun s => s.status == Status.closed) = true ∧
        Wf (runSimAux k p acc).snd ∧
        (runSimAux k p acc).fst =
          ⟨acc.sessions_created + k, acc.sessions_closed + k⟩ := by
  intro k
  induction k with
  | zero =>
      intro p acc hwf
      exact ⟨[], by simp [runSimAux], rfl, rfl, hwf, by simp [runSimAux]⟩
  | succ k ih =>
      intro p acc hwf
      have hstep : runSimAux (k + 1) p acc =
          runSimAux k (simOne p acc.sessions_created).snd
            ⟨acc.sessions_created + (simOne p acc.sessions_created).fst.fst,
             acc.sessions_closed + (simOne p acc.sessions_created).fst.snd⟩ := rfl
      rw [hstep, simOne_eq p acc.sessions_created hwf]
      have hwf' : Wf { p with sessions := p.sessions ++ [simSession p acc.sessions_created],
                              nextId := p.nextId + 1, totalCreated := p.totalCreated + 1 } := by
        intro s hs
        rcases List.mem_append.mp hs with h | h
        · exact Nat.lt_succ_of_lt (hwf s h)
        · rw [List.mem_singleton.mp h]
          exact Nat.lt_succ_self p.nextId
      obtain ⟨suffix, h1, h2, h3, h4, h5⟩ := ih
        { p with sessions := p.sessions ++ [simSession p acc.sessions_created],
                 nextId := p.nextId + 1, totalCreated := p.totalCreated + 1 }
        ⟨acc.sessions_created + 1, acc.sessions_closed + 1⟩ hwf'
      refine ⟨simSession p acc.sessions_created :: suffix, ?_, ?_, ?_, h4, ?_⟩
      · rw [h1]
        simp
      · simp [h2]
      · simp only [List.all_cons, h3, Bool.and_true]
        rfl
      · rw [h5]
        have hc : acc.sessions_created + 1 + k = acc.sessions_created + (k + 1) := by omega
        have hd : acc.sessions_closed + 1 + k = acc.sessions_closed + (k + 1) := by omega
        rw [hc, hd]

/-- C4: `run_ariva_simulation` on a well-formed platform (every state reachable
from `create_ariva`) leaves every session it created closed by the end of the
run — the sessions appended during the run all end with status closed and the
number of active sessions is unchanged from the start (zero when starting from
a fresh handle) — and it reports num created / num closed. -/
theorem C4_simulation_closes_all :
    ∀ (p : Platform) (num : Nat), Wf p →
      countActive (run_ariva_simulation p num).snd = countActive p ∧
      ((run_ariva_simulation p num).snd.sessions.drop p.sessions.length).all
        (fun s => s.status == Status.closed) = true ∧
      (run_ariva_simulation p num).fst = ⟨num, num⟩ := by
  intro p num hwf
  obtain ⟨suffix, h1, _h2, h3, _h4, h5⟩ := runSimAux_spec num p ⟨0, 0⟩ hwf
  have hsess : (run_ariva_simulation p num).snd.sessions = p.sessions ++ suffix := h1
  refine ⟨?_, ?_, ?_⟩
  · unfold countActive
    rw [hsess, List.countP_append]
    have hzero : suffix.countP (fun s => s.status == Status.active) = 0 := by
      rw [List.countP_eq_zero]
      intro s hs
      have := List.all_eq_true.mp h3 s hs
      intro hcontra
      rw [show s.status = Status.closed from by simpa using this] at hcontra
      exact absurd hcontra (by decide)
    rw [hzero, Nat.add_zero]
  · rw [hsess, List.drop_left]
    exact h3
  · rw [show (run_ariva_simulation p num).fst = (runSimAux num p ⟨0, 0⟩).fst from rfl, h5]
    simp

/-- Witness for C4: the spec scenario — a fresh platform handle and five
sessions: zero active sessions remain (the count is unchanged from the empty
store), every session created during the run is closed, and the report says
5 created / 5 closed. -/
theorem C4_simulation_closes_all_witness :
    Wf create_ariva ∧
    (countActive (run_ariva_simulation create_ariva 5).snd = countActive create_ariva ∧
     ((run_ariva_simulation create_ariva 5).snd.sessions.drop
        create_ariva.sessions.length).all (fun s => s.status == Status.closed) = true ∧
     (run_ariva_simulation create_ariva 5).fst = ⟨5, 5⟩) := by
  have hwf : Wf create_ariva := by
    intro s hs
    exact absurd hs (List.not_mem_nil s)
  exact ⟨hwf, C4_simulation_closes_all create_ariva 5 hwf⟩

end Ama
